import Mathlib

/-!
Verification of the momentum-ai trajectory modeling and forecasting engine
(`backend/app/core/momentum_engine.py` and
`backend/app/core/forecasting_engine.py`).

The Python source is shallowly embedded over `ℚ`: every arithmetic
constant of the source (0.05, 0.15, 0.98, ...) is an exact rational, so
all formulas are translated exactly.  External numerical routines that
the source calls (scipy's `solve_ivp` RK45 integrator, `scipy.optimize.minimize`,
`np.roots`, the fitted scikit-learn Gaussian process, statsmodels' SARIMAX)
are not re-implemented: each is passed in as an explicit argument
(an `Option`-valued result for fallible routines, a function argument for
oracles), and the surrounding control flow — which is what the claims are
about — is translated line by line.  Random draws (`np.random.normal`,
`np.random.uniform`) are likewise supplied as explicit arguments, following
the design note in the spec about a pluggable pseudo-random source.
-/

namespace MomentumAI

/-- `np.clip(x, 0, 100)`. -/
def clip100 (x : ℚ) : ℚ := max 0 (min x 100)

theorem clip100_nonneg (x : ℚ) : 0 ≤ clip100 x := le_max_left 0 _

theorem clip100_le (x : ℚ) : clip100 x ≤ 100 :=
  max_le (by norm_num) (min_le_right x 100)

/-- `StudentState` (momentum_engine.py).  The bookkeeping fields
`student_id`, `timestamp` and `subject_performance` are omitted: `solve`
copies them through unchanged (shifting only the timestamp) and no claim
refers to them. -/
structure StudentState where
  momentum_score : ℚ
  academic_state : Fin 4 → ℚ
  psychological_state : Fin 5 → ℚ
  learning_velocity : ℚ
  intervention_level : ℚ

/-- The 10-dimensional state vector `[M, A₁..A₄, P₁..P₅]` handled by
`HeatEquationMomentumModel.momentum_pde` / `solve`, kept in its three
named blocks rather than flattened. -/
structure PDEVec where
  M : ℚ
  A : Fin 4 → ℚ
  P : Fin 5 → ℚ

namespace HeatEquationMomentumModel

/-- Constructor defaults `alpha=0.5, beta=0.3, gamma=0.2`. -/
def alphaDefault : ℚ := 1/2

def betaDefault : ℚ := 3/10

def gammaDefault : ℚ := 1/5

/-- `HeatEquationMomentumModel.momentum_pde`: right-hand side of the ODE
system.  `noiseA` stands for the `np.random.normal(0, 0.01, size=A.shape)`
draw added to the academic derivatives (the only stochastic term). -/
def momentum_pde (alpha beta gamma : ℚ) (state : PDEVec)
    (teacher_intervention external_stress : ℚ) (noiseA : Fin 4 → ℚ) : PDEVec :=
  let M := state.M
  let A := state.A
  let P := state.P
  -- laplacian_M = alpha * (np.sum(A**2) - M**2)
  let laplacian_M := alpha * ((∑ i, (A i) ^ 2) - M ^ 2)
  -- psychological_source = beta * np.mean(P)
  let psychological_source := beta * ((∑ i, P i) / 5)
  -- academic_source = gamma * np.mean(A)
  let academic_source := gamma * ((∑ i, A i) / 4)
  let intervention_source := (1/10) * teacher_intervention
  -- nonlinear_term = M * (1 - M/100) * (1 + academic_source/50)
  let nonlinear_term := M * (1 - M/100) * (1 + academic_source/50)
  let dM := laplacian_M + psychological_source + intervention_source + nonlinear_term
  -- stress_effect = [external_stress, 0, 0, 0, -external_stress]
  let stress_effect : Fin 5 → ℚ := fun i =>
    if i = 0 then external_stress else if i = 4 then -external_stress else 0
  { M := dM
    A := fun i => -(1/20) * A i + (3/20) * M + noiseA i
    P := fun i => -(2/25) * P i + (3/25) * M + (1/100) * stress_effect i }

/-- `HeatEquationMomentumModel.solve`.  The call to scipy's adaptive RK45
integrator is the `integration` argument: `none` models
`solution.success == False` (the function then returns `initial_state`
unmodified), `some final` models a successful run with `final` the last
solution column `solution.y[:, -1]`.  Only `final_state[0]` is passed
through `np.clip`; the academic and psychological blocks are copied raw. -/
def solve (initial_state : StudentState) (time_horizon : ℚ)
    (teacher_intervention : ℚ) (integration : Option PDEVec) : StudentState :=
  match integration with
  | none => initial_state
  | some final =>
    { momentum_score := clip100 final.M
      academic_state := final.A
      psychological_state := final.P
      learning_velocity := (final.M - initial_state.momentum_score) / time_horizon
      intervention_level := teacher_intervention }

end HeatEquationMomentumModel

/-- With every component of the state at the boundary value 100, zero noise
and default coefficients, the academic derivatives of `momentum_pde` are
`-0.05·100 + 0.15·100 = 10 > 0`: the region `[0,100]` is not invariant
under the dynamics, so a successful integration can leave `[0,100]` in the
academic block — which `solve` does not clamp. -/
theorem momentum_pde_academic_derivative_pos (i : Fin 4) :
    0 < (HeatEquationMomentumModel.momentum_pde
      HeatEquationMomentumModel.alphaDefault
      HeatEquationMomentumModel.betaDefault
      HeatEquationMomentumModel.gammaDefault
      ⟨100, fun _ => 100, fun _ => 100⟩ 0 0 (fun _ => 0)).A i := by
  simp [HeatEquationMomentumModel.momentum_pde, HeatEquationMomentumModel.alphaDefault,
    HeatEquationMomentumModel.betaDefault, HeatEquationMomentumModel.gammaDefault]
  norm_num

/-- C1 (amended): on a successful integration, `solve` clamps only the
momentum score into `[0,100]`; the academic and psychological components
are the raw last solution column, returned without any clamping. -/
theorem solve_clamps_only_momentum (init : StudentState) (horizon ti : ℚ)
    (final : PDEVec) :
    (0 ≤ (HeatEquationMomentumModel.solve init horizon ti (some final)).momentum_score ∧
      (HeatEquationMomentumModel.solve init horizon ti (some final)).momentum_score ≤ 100) ∧
    (HeatEquationMomentumModel.solve init horizon ti (some final)).academic_state = final.A ∧
    (HeatEquationMomentumModel.solve init horizon ti (some final)).psychological_state = final.P :=
  ⟨⟨clip100_nonneg _, clip100_le _⟩, rfl, rfl⟩

/-- C1 counterexample: from a fully in-range initial state (all components
50), a successful integration whose academic block ends at 300 — reachable,
since the academic derivative stays positive at the 100 boundary
(`momentum_pde_academic_derivative_pos`) — is returned by `solve` with an
academic component of 300, outside `[0,100]`.  So the claim that every
academic and psychological output component lies in `[0,100]` is false. -/
theorem solve_academic_not_clamped_cex :
    (HeatEquationMomentumModel.solve ⟨50, fun _ => 50, fun _ => 50, 0, 0⟩ 1 0
      (some ⟨50, fun _ => 300, fun _ => 50⟩)).academic_state 0 = 300 ∧
    ¬ ((HeatEquationMomentumModel.solve ⟨50, fun _ => 50, fun _ => 50, 0, 0⟩ 1 0
      (some ⟨50, fun _ => 300, fun _ => 50⟩)).academic_state 0 ≤ 100) := by
  exact ⟨rfl, by norm_num [HeatEquationMomentumModel.solve]⟩

/-- `BayesianMomentumEstimator` state: the accumulated `training_data`
(feature vector / observed score pairs) and the data set the Gaussian
process was last fitted on (`none` while `gp.fit` has never been called).
The fitted scikit-learn regressor itself is external; `predict` takes it
as an oracle argument. -/
structure BayesianMomentumEstimator where
  training_data : List (List ℚ × ℚ)
  fitted_on : Option (List (List ℚ × ℚ))

namespace BayesianMomentumEstimator

/-- Fresh estimator: `self.training_data = []`, `gp` unfitted. -/
def mk0 : BayesianMomentumEstimator := ⟨[], none⟩

/-- `update(features, momentum_score)`: append the observation, then refit
iff `len(self.training_data) > 10`. -/
def update (e : BayesianMomentumEstimator) (features : List ℚ)
    (momentum_score : ℚ) : BayesianMomentumEstimator :=
  let td := e.training_data ++ [(features, momentum_score)]
  { training_data := td
    fitted_on := if td.length > 10 then some td else e.fitted_on }

/-- `predict(features)`: `(50.0, 20.0)` when fewer than 10 samples exist,
else the external Gaussian-process prediction `gp` at the current fit
state (`gp none features` is scikit-learn's prior prediction of a
never-fitted model). -/
def predict (e : BayesianMomentumEstimator)
    (gp : Option (List (List ℚ × ℚ)) → List ℚ → ℚ × ℚ)
    (features : List ℚ) : ℚ × ℚ :=
  if e.training_data.length < 10 then (50, 20) else gp e.fitted_on features

end BayesianMomentumEstimator

/-- C2 (amended): `predict` returns exactly `(50, 20)` for every feature
vector while strictly fewer than 10 evidence pairs have been added; the
refit, however, happens only once the evidence set has strictly more than
10 samples (11 or more) — after such an `update` the regression is fitted
on the full current evidence set. -/
theorem predict_default_and_refit_threshold :
    (∀ (e : BayesianMomentumEstimator)
      (gp : Option (List (List ℚ × ℚ)) → List ℚ → ℚ × ℚ) (features : List ℚ),
      e.training_data.length < 10 → e.predict gp features = (50, 20)) ∧
    (∀ (e : BayesianMomentumEstimator) (features : List ℚ) (v : ℚ),
      10 < (e.update features v).training_data.length →
      (e.update features v).fitted_on = some (e.update features v).training_data) := by
  constructor
  · intro e gp features h
    simp [BayesianMomentumEstimator.predict, h]
  · intro e features v h
    simp only [BayesianMomentumEstimator.update] at h ⊢
    rw [if_pos h]

theorem predict_default_and_refit_threshold_witness :
    BayesianMomentumEstimator.mk0.predict (fun _ _ => (0, 0)) [1, 2] = (50, 20) ∧
    ((BayesianMomentumEstimator.mk (List.replicate 10 ([1], 60)) none).update [1] 60).fitted_on =
      some ((BayesianMomentumEstimator.mk (List.replicate 10 ([1], 60)) none).update [1] 60).training_data :=
  ⟨predict_default_and_refit_threshold.1 BayesianMomentumEstimator.mk0
      (fun _ _ => (0, 0)) [1, 2] (by decide),
    predict_default_and_refit_threshold.2
      (BayesianMomentumEstimator.mk (List.replicate 10 ([1], 60)) none) [1] 60 (by decide)⟩

/-- C2 counterexample: after exactly 10 `update` calls on a fresh
estimator the evidence set holds 10 samples — "at least 10 samples exist"
— yet no refit has happened (`fitted_on` is still `none`, because the
refit guard is `len > 10`), so `predict` consults the never-fitted
regressor rather than a fitted posterior. -/
theorem update_no_refit_at_ten_cex :
    ((fun e => BayesianMomentumEstimator.update e [1] 60)^[10]
      BayesianMomentumEstimator.mk0).training_data.length = 10 ∧
    ((fun e => BayesianMomentumEstimator.update e [1] 60)^[10]
      BayesianMomentumEstimator.mk0).fitted_on = none := by
  constructor <;> decide

/-- `np.linspace(start, stop, num)`: `num` evenly spaced samples with both
endpoints included (`num = 1` gives `[start]`, `num = 0` gives `[]`). -/
def linspace (start stop : ℚ) (num : ℕ) : List ℚ :=
  if num ≤ 1 then (List.range num).map (fun _ => start)
  else (List.range num).map
    (fun i : ℕ => start + (stop - start) * (i : ℚ) / ((num : ℚ) - 1))

theorem linspace_length (start stop : ℚ) (num : ℕ) :
    (linspace start stop num).length = num := by
  unfold linspace
  split <;> simp

namespace VariationalMomentumOptimizer

/-- `VariationalMomentumOptimizer.optimize_trajectory`.  The bounded
L-BFGS-B minimisation of the energy functional is the external
`minimize_result` argument: `some x` models `result.success == True` with
solution `x`, `none` models non-convergence, in which case the
linear-interpolation seed `x0 = np.linspace(current momentum, target,
n_steps)` is returned unmodified. -/
def optimize_trajectory (current_state : StudentState) (target_momentum : ℚ)
    (n_steps : ℕ) (minimize_result : Option (List ℚ)) : List ℚ :=
  let x0 := linspace current_state.momentum_score target_momentum n_steps
  match minimize_result with
  | some x => x
  | none => x0

end VariationalMomentumOptimizer

/-- C7: both numeric fallbacks are deterministic and leave the inputs
untouched.  On integrator failure `solve` returns the initial state
itself; on optimizer failure `optimize_trajectory` returns the
linear-interpolation seed, an `n_steps`-point ramp starting at the
current momentum score and ending at the target momentum. -/
theorem numeric_fallbacks_unmodified (init : StudentState) (horizon ti : ℚ)
    (cur : StudentState) (target : ℚ) (n_steps : ℕ) (h2 : 2 ≤ n_steps) :
    HeatEquationMomentumModel.solve init horizon ti none = init ∧
    VariationalMomentumOptimizer.optimize_trajectory cur target n_steps none =
      linspace cur.momentum_score target n_steps ∧
    (VariationalMomentumOptimizer.optimize_trajectory cur target n_steps none).length = n_steps ∧
    (VariationalMomentumOptimizer.optimize_trajectory cur target n_steps none).get? 0 =
      some cur.momentum_score ∧
    (VariationalMomentumOptimizer.optimize_trajectory cur target n_steps none).get? (n_steps - 1) =
      some target := by
  refine ⟨rfl, rfl, linspace_length _ _ _, ?_, ?_⟩
  · show (linspace cur.momentum_score target n_steps).get? 0 = _
    unfold linspace
    rw [if_neg (by omega)]
    rw [List.get?_map, List.get?_range (by omega)]
    simp
  · show (linspace cur.momentum_score target n_steps).get? (n_steps - 1) = _
    unfold linspace
    rw [if_neg (by omega)]
    rw [List.get?_map, List.get?_range (by omega)]
    have hn : ((n_steps : ℚ) - 1) ≠ 0 := by
      have : (2 : ℚ) ≤ (n_steps : ℚ) := by exact_mod_cast h2
      linarith
    have hcast : (((n_steps - 1 : ℕ)) : ℚ) = (n_steps : ℚ) - 1 := by
      have : (1 : ℕ) ≤ n_steps := by omega
      push_cast [Nat.cast_sub this]
      ring
    simp only [Option.map_some', Option.some_inj]
    rw [hcast]
    field_simp

/-- Witness for `numeric_fallbacks_unmodified` at concrete inputs. -/
theorem numeric_fallbacks_unmodified_witness :
    HeatEquationMomentumModel.solve ⟨40, fun _ => 50, fun _ => 50, 0, 0⟩ 7 3 none =
      ⟨40, fun _ => 50, fun _ => 50, 0, 0⟩ ∧
    VariationalMomentumOptimizer.optimize_trajectory ⟨40, fun _ => 50, fun _ => 50, 0, 0⟩ 90 5 none =
      linspace (StudentState.mk 40 (fun _ => 50) (fun _ => 50) 0 0).momentum_score 90 5 ∧
    (VariationalMomentumOptimizer.optimize_trajectory ⟨40, fun _ => 50, fun _ => 50, 0, 0⟩ 90 5 none).length = 5 ∧
    (VariationalMomentumOptimizer.optimize_trajectory ⟨40, fun _ => 50, fun _ => 50, 0, 0⟩ 90 5 none).get? 0 =
      some (StudentState.mk 40 (fun _ => 50) (fun _ => 50) 0 0).momentum_score ∧
    (VariationalMomentumOptimizer.optimize_trajectory ⟨40, fun _ => 50, fun _ => 50, 0, 0⟩ 90 5 none).get? (5 - 1) =
      some 90 :=
  numeric_fallbacks_unmodified ⟨40, fun _ => 50, fun _ => 50, 0, 0⟩ 7 3
    ⟨40, fun _ => 50, fun _ => 50, 0, 0⟩ 90 5 (by decide)

/-- Discretized state key: the tuple `discretize_state` returns. -/
abbrev StateKey := List ℕ

/-- One row of the Q-table: the fixed-length action-value vector
(`action_dim = 6`). -/
abbrev QRow := Fin 6 → ℚ

/-- `DeepQLearningAgent` mutable state: the lazily grown Q-table (kept in
insertion order, as a Python dict is) and the exploration rate. -/
structure DeepQLearningAgent where
  q_table : List (StateKey × QRow)
  epsilon : ℚ

namespace DeepQLearningAgent

def learning_rate : ℚ := 1/10

def discount_factor : ℚ := 19/20

def epsilon_decay : ℚ := 995/1000

def epsilon_min : ℚ := 1/100

/-- Fresh agent: empty table, `epsilon = 0.2`. -/
def mk0 : DeepQLearningAgent := ⟨[], 2/10⟩

/-- `np.digitize(s, np.linspace(0, 100, bins))` with `bins = 10`: the
number of bin edges that are `≤ s`. -/
def digitize (s : ℚ) : ℕ :=
  ((linspace 0 100 10).filter (fun e => decide (e ≤ s))).length

/-- `discretize_state`. -/
def discretize_state (state : List ℚ) : StateKey := state.map digitize

/-- Dictionary lookup `self.q_table[key]`. -/
def qfind (t : List (StateKey × QRow)) (k : StateKey) : Option QRow :=
  (t.find? (fun p => p.1 == k)).map Prod.snd

/-- Lazy insertion: an unseen key is initialised with the
`np.random.uniform(0, 1, action_dim)` draw (the explicit `init_vals`
argument); a present key is left alone. -/
def ensureKey (t : List (StateKey × QRow)) (k : StateKey) (init_vals : QRow) :
    List (StateKey × QRow) :=
  if (qfind t k).isSome then t else t ++ [(k, init_vals)]

/-- In-place cell write `self.q_table[key][action] = v`. -/
def setCell (t : List (StateKey × QRow)) (k : StateKey) (a : Fin 6) (v : ℚ) :
    List (StateKey × QRow) :=
  t.map (fun p => if p.1 == k then (p.1, Function.update p.2 a v) else p)

/-- `np.max` over an action-value row. -/
def rowMax (f : QRow) : ℚ :=
  max (f 0) (max (f 1) (max (f 2) (max (f 3) (max (f 4) (f 5)))))

/-- `DeepQLearningAgent.update`.  `rand_s` / `rand_ns` are the uniform
random rows with which a not-yet-seen `state_key` / `next_state_key`
would be initialised. -/
def update (ag : DeepQLearningAgent) (state : List ℚ) (action : Fin 6)
    (reward : ℚ) (next_state : List ℚ) (done : Bool)
    (rand_s rand_ns : QRow) : DeepQLearningAgent :=
  let state_key := discretize_state state
  let next_state_key := discretize_state next_state
  let t1 := ensureKey ag.q_table state_key rand_s
  let t2 := ensureKey t1 next_state_key rand_ns
  let current_q := ((qfind t2 state_key).getD rand_s) action
  let td_target :=
    if done then reward
    else reward + discount_factor * rowMax ((qfind t2 next_state_key).getD rand_ns)
  let td_error := td_target - current_q
  { q_table := setCell t2 state_key action (current_q + learning_rate * td_error)
    epsilon := max epsilon_min (ag.epsilon * epsilon_decay) }

/-- The action-value the agent currently stores for `(key, action)`
(0 when the key has never been inserted). -/
def qcell (ag : DeepQLearningAgent) (k : StateKey) (a : Fin 6) : ℚ :=
  ((qfind ag.q_table k).getD (fun _ => 0)) a

end DeepQLearningAgent

namespace DeepQLearningAgent

theorem qfind_ensureKey_of_isSome (t : List (StateKey × QRow)) (k k' : StateKey)
    (iv : QRow) (h : (qfind t k).isSome) :
    qfind (ensureKey t k' iv) k = qfind t k := by
  unfold ensureKey
  split
  · rfl
  · unfold qfind at h ⊢
    rcases ho : t.find? (fun p => p.1 == k) with _ | p
    · rw [ho] at h; simp at h
    · rw [List.find?_append, ho]
      rfl

theorem qfind_setCell_self (t : List (StateKey × QRow)) (k : StateKey)
    (a : Fin 6) (v : ℚ) :
    qfind (setCell t k a v) k = (qfind t k).map (fun f => Function.update f a v) := by
  induction t with
  | nil => rfl
  | cons p rest ih =>
    unfold setCell qfind at ih ⊢
    by_cases hk : p.1 == k
    · simp only [List.map_cons, List.find?_cons, hk, if_pos]
      rfl
    · simp only [List.map_cons, List.find?_cons, hk, if_neg, Bool.false_eq_true,
        not_false_iff, if_false]
      simpa using ih

/-- One terminal `update` on a present key rewrites exactly the
`(state_key, action)` cell by the Q-learning rule with `td_target = reward`. -/
theorem update_done_qfind (ag : DeepQLearningAgent) (state : List ℚ)
    (action : Fin 6) (reward : ℚ) (next_state : List ℚ) (rand_s rand_ns : QRow)
    (g : QRow) (hg : qfind ag.q_table (discretize_state state) = some g) :
    qfind (update ag state action reward next_state true rand_s rand_ns).q_table
        (discretize_state state) =
      some (Function.update g action
        (g action + learning_rate * (reward - g action))) := by
  unfold update
  have h1 : ensureKey ag.q_table (discretize_state state) rand_s = ag.q_table := by
    unfold ensureKey
    rw [if_pos (by rw [hg]; rfl)]
  have h2 : qfind (ensureKey ag.q_table (discretize_state next_state) rand_ns)
      (discretize_state state) = some g := by
    rw [qfind_ensureKey_of_isSome _ _ _ _ (by rw [hg]; rfl), hg]
  simp only [h1, qfind_setCell_self, h2]
  rfl

/-- C8: on any terminal transition whose reward strictly exceeds the
currently stored action-value, repeating the same `update` forever keeps
the reward strictly above the stored value, so every iteration strictly
increases the stored Q-value of that `(state, action)` pair. -/
theorem q_update_strict_increase (ag : DeepQLearningAgent) (state : List ℚ)
    (action : Fin 6) (reward : ℚ) (next_state : List ℚ) (rand_s rand_ns : QRow)
    (g : QRow) (hg : qfind ag.q_table (discretize_state state) = some g)
    (hr : g action < reward) :
    ∀ n : ℕ,
      qcell ((fun a => update a state action reward next_state true rand_s rand_ns)^[n] ag)
          (discretize_state state) action <
        qcell ((fun a => update a state action reward next_state true rand_s rand_ns)^[n + 1] ag)
          (discretize_state state) action := by
  set step := fun a => update a state action reward next_state true rand_s rand_ns with hstep
  have key : ∀ n : ℕ, ∃ g' : QRow,
      qfind (step^[n] ag).q_table (discretize_state state) = some g' ∧
      g' action < reward := by
    intro n
    induction n with
    | zero => exact ⟨g, hg, hr⟩
    | succ m ih =>
      obtain ⟨g', hg', hr'⟩ := ih
      refine ⟨Function.update g' action
        (g' action + learning_rate * (reward - g' action)), ?_, ?_⟩
      · rw [Function.iterate_succ_apply', hstep]
        exact update_done_qfind _ _ _ _ _ _ _ _ hg'
      · rw [Function.update_same]
        unfold learning_rate
        linarith
  intro n
  obtain ⟨g', hg', hr'⟩ := key n
  have hnext :
      qfind (step^[n + 1] ag).q_table (discretize_state state) =
        some (Function.update g' action
          (g' action + learning_rate * (reward - g' action))) := by
    rw [Function.iterate_succ_apply', hstep]
    exact update_done_qfind _ _ _ _ _ _ _ _ hg'
  unfold qcell
  rw [hg', hnext]
  simp only [Option.getD_some, Function.update_same]
  unfold learning_rate
  linarith

/-- Witness for `q_update_strict_increase`: an agent whose table holds the
key of the state `[50]` with the all-zero row; reward 1 exceeds the stored
value 0, and the first iteration strictly increases the cell. -/
theorem q_update_strict_increase_witness :
    qcell ((fun a => update a [50] 0 1 [50] true (fun _ => 0) (fun _ => 0))^[0]
        ⟨[(discretize_state [50], fun _ => 0)], 2/10⟩)
      (discretize_state [50]) 0 <
    qcell ((fun a => update a [50] 0 1 [50] true (fun _ => 0) (fun _ => 0))^[0 + 1]
        ⟨[(discretize_state [50], fun _ => 0)], 2/10⟩)
      (discretize_state [50]) 0 :=
  q_update_strict_increase ⟨[(discretize_state [50], fun _ => 0)], 2/10⟩
    [50] 0 1 [50] (fun _ => 0) (fun _ => 0) (fun _ => 0)
    (by simp [DeepQLearningAgent.qfind]) (by norm_num) 0

end DeepQLearningAgent

/-- The arguments of one `DeepQLearningAgent.update` call (including the
random rows that would initialise unseen keys). -/
structure UpdateArgs where
  state : List ℚ
  action : Fin 6
  reward : ℚ
  next_state : List ℚ
  done : Bool
  rand_s : QRow
  rand_ns : QRow

/-- The agent after `n` update calls with argument stream `args`, starting
from the freshly constructed agent. -/
def runUpdates (args : ℕ → UpdateArgs) : ℕ → DeepQLearningAgent
  | 0 => DeepQLearningAgent.mk0
  | n + 1 =>
    let u := args n
    DeepQLearningAgent.update (runUpdates args n) u.state u.action u.reward
      u.next_state u.done u.rand_s u.rand_ns

/-- C9: across every sequence of `update` calls the exploration rate is
non-increasing and never falls below the floor 0.01: each call replaces
`epsilon` by `max 0.01 (epsilon * 0.995)`, and the fresh agent starts at
`0.2 ≥ 0.01`. -/
theorem epsilon_monotone_floor (args : ℕ → UpdateArgs) (n : ℕ) :
    1/100 ≤ (runUpdates args n).epsilon ∧
    (runUpdates args (n + 1)).epsilon ≤ (runUpdates args n).epsilon := by
  have floor : ∀ m : ℕ, 1/100 ≤ (runUpdates args m).epsilon := by
    intro m
    induction m with
    | zero => norm_num [runUpdates, DeepQLearningAgent.mk0]
    | succ k ih =>
      show 1/100 ≤ max DeepQLearningAgent.epsilon_min _
      exact le_max_of_le_left (by norm_num [DeepQLearningAgent.epsilon_min])
  refine ⟨floor n, ?_⟩
  show max DeepQLearningAgent.epsilon_min ((runUpdates args n).epsilon *
    DeepQLearningAgent.epsilon_decay) ≤ (runUpdates args n).epsilon
  have h := floor n
  apply max_le
  · calc DeepQLearningAgent.epsilon_min = 1/100 := rfl
      _ ≤ _ := h
  · have hpos : (0:ℚ) ≤ (runUpdates args n).epsilon := by linarith
    calc (runUpdates args n).epsilon * DeepQLearningAgent.epsilon_decay
        ≤ (runUpdates args n).epsilon * 1 := by
          apply mul_le_mul_of_nonneg_left _ hpos
          norm_num [DeepQLearningAgent.epsilon_decay]
      _ = (runUpdates args n).epsilon := mul_one _

/-- Result dictionary of
`CatastropheTheoryAnalyzer.analyze_collapse_risk`. -/
structure CatastropheResult where
  collapse_risk : ℚ
  near_bifurcation : Bool
  is_stable : Bool
  equilibria : List ℚ
  bifurcation_distance : ℚ

/-- `x` is an equilibrium of the cusp potential for controls `(a, b)`:
a real root of `x³ + a·x + b = 0` (`find_equilibria`'s defining cubic). -/
def IsEquilibrium (a b x : ℚ) : Prop := x ^ 3 + a * x + b = 0

namespace CatastropheTheoryAnalyzer

/-- `is_on_bifurcation_set` with the default `threshold = 0.1`. -/
def is_on_bifurcation_set (a b : ℚ) : Bool :=
  decide (|4 * a ^ 3 + 27 * b ^ 2| < 1/10)

/-- `analyze_collapse_risk`.  `find_equilibria` calls `np.roots`, an
external numeric eigenvalue routine; it is the `roots` argument, with
`roots a b` standing for the real parts of the returned roots whose
imaginary part is below `1e-10` (floating-point outputs are rationals). -/
def analyze_collapse_risk (roots : ℚ → ℚ → List ℚ)
    (momentum stress support : ℚ) : CatastropheResult :=
  let a := (stress - 50) / 25
  let b := (support - 50) / 25
  let x := (momentum - 50) / 25
  let equilibria := roots a b
  let near_bifurcation := is_on_bifurcation_set a b
  let second_derivative := 3 * x ^ 2 + a
  let is_stable : Bool := decide (second_derivative > 0)
  let collapse_risk : ℚ :=
    if near_bifurcation then 8/10
    else if !is_stable then 6/10
    else if 1 < equilibria.length then 5/10
    else 2/10
  { collapse_risk := collapse_risk
    near_bifurcation := near_bifurcation
    is_stable := is_stable
    equilibria := equilibria
    bifurcation_distance := |4 * a ^ 3 + 27 * b ^ 2| }

end CatastropheTheoryAnalyzer

/-- C5: `analyze_collapse_risk` assigns `collapse_risk` by the fixed
precedence table — near-bifurcation 0.8, else instability 0.6, else more
than one equilibrium found 0.5, else 0.2 — and at
`(momentum, stress, support) = (50, 50, 50)` (so `a = b = 0`) it reports
`near_bifurcation = true` and `collapse_risk = 0.8`, with the equilibria
list containing the root 0 for any root finder that is complete at
`(0, 0)` (0 is indeed a root there: `0³ + 0·0 + 0 = 0`). -/
theorem analyze_collapse_risk_decision_table (roots : ℚ → ℚ → List ℚ)
    (hcomp : ∀ x : ℚ, IsEquilibrium 0 0 x → x ∈ roots 0 0) :
    (∀ m s su : ℚ,
      ((CatastropheTheoryAnalyzer.analyze_collapse_risk roots m s su).near_bifurcation = true →
        (CatastropheTheoryAnalyzer.analyze_collapse_risk roots m s su).collapse_risk = 8/10) ∧
      ((CatastropheTheoryAnalyzer.analyze_collapse_risk roots m s su).near_bifurcation = false →
        (CatastropheTheoryAnalyzer.analyze_collapse_risk roots m s su).is_stable = false →
        (CatastropheTheoryAnalyzer.analyze_collapse_risk roots m s su).collapse_risk = 6/10) ∧
      ((CatastropheTheoryAnalyzer.analyze_collapse_risk roots m s su).near_bifurcation = false →
        (CatastropheTheoryAnalyzer.analyze_collapse_risk roots m s su).is_stable = true →
        1 < (CatastropheTheoryAnalyzer.analyze_collapse_risk roots m s su).equilibria.length →
        (CatastropheTheoryAnalyzer.analyze_collapse_risk roots m s su).collapse_risk = 5/10) ∧
      ((CatastropheTheoryAnalyzer.analyze_collapse_risk roots m s su).near_bifurcation = false →
        (CatastropheTheoryAnalyzer.analyze_collapse_risk roots m s su).is_stable = true →
        ¬ (1 < (CatastropheTheoryAnalyzer.analyze_collapse_risk roots m s su).equilibria.length) →
        (CatastropheTheoryAnalyzer.analyze_collapse_risk roots m s su).collapse_risk = 2/10)) ∧
    (CatastropheTheoryAnalyzer.analyze_collapse_risk roots 50 50 50).near_bifurcation = true ∧
    (CatastropheTheoryAnalyzer.analyze_collapse_risk roots 50 50 50).collapse_risk = 8/10 ∧
    IsEquilibrium 0 0 0 ∧
    (0 : ℚ) ∈ (CatastropheTheoryAnalyzer.analyze_collapse_risk roots 50 50 50).equilibria := by
  have heq0 : IsEquilibrium 0 0 0 := by unfold IsEquilibrium; ring
  refine ⟨?_, ?_, ?_, heq0, ?_⟩
  · intro m s su
    simp only [CatastropheTheoryAnalyzer.analyze_collapse_risk]
    refine ⟨?_, ?_, ?_, ?_⟩
    · intro hb; rw [if_pos hb]
    · intro hb hs
      rw [if_neg (by simp [hb]), if_pos (by simp [hs])]
    · intro hb hs hl
      rw [if_neg (by simp [hb]), if_neg (by simp [hs]), if_pos hl]
    · intro hb hs hl
      rw [if_neg (by simp [hb]), if_neg (by simp [hs]), if_neg hl]
  · simp only [CatastropheTheoryAnalyzer.analyze_collapse_risk,
      CatastropheTheoryAnalyzer.is_on_bifurcation_set]
    norm_num
  · simp only [CatastropheTheoryAnalyzer.analyze_collapse_risk,
      CatastropheTheoryAnalyzer.is_on_bifurcation_set]
    norm_num
  · have : (0 : ℚ) ∈ roots 0 0 := hcomp 0 heq0
    simp only [CatastropheTheoryAnalyzer.analyze_collapse_risk]
    norm_num
    convert this using 2

/-- Witness for `analyze_collapse_risk_decision_table` with the concrete
root finder returning the triple root `[0, 0, 0]` of `x³ = 0`. -/
theorem analyze_collapse_risk_decision_table_witness :
    (∀ m s su : ℚ,
      ((CatastropheTheoryAnalyzer.analyze_collapse_risk (fun _ _ => [0, 0, 0]) m s su).near_bifurcation = true →
        (CatastropheTheoryAnalyzer.analyze_collapse_risk (fun _ _ => [0, 0, 0]) m s su).collapse_risk = 8/10) ∧
      ((CatastropheTheoryAnalyzer.analyze_collapse_risk (fun _ _ => [0, 0, 0]) m s su).near_bifurcation = false →
        (CatastropheTheoryAnalyzer.analyze_collapse_risk (fun _ _ => [0, 0, 0]) m s su).is_stable = false →
        (CatastropheTheoryAnalyzer.analyze_collapse_risk (fun _ _ => [0, 0, 0]) m s su).collapse_risk = 6/10) ∧
      ((CatastropheTheoryAnalyzer.analyze_collapse_risk (fun _ _ => [0, 0, 0]) m s su).near_bifurcation = false →
        (CatastropheTheoryAnalyzer.analyze_collapse_risk (fun _ _ => [0, 0, 0]) m s su).is_stable = true →
        1 < (CatastropheTheoryAnalyzer.analyze_collapse_risk (fun _ _ => [0, 0, 0]) m s su).equilibria.length →
        (CatastropheTheoryAnalyzer.analyze_collapse_risk (fun _ _ => [0, 0, 0]) m s su).collapse_risk = 5/10) ∧
      ((CatastropheTheoryAnalyzer.analyze_collapse_risk (fun _ _ => [0, 0, 0]) m s su).near_bifurcation = false →
        (CatastropheTheoryAnalyzer.analyze_collapse_risk (fun _ _ => [0, 0, 0]) m s su).is_stable = true →
        ¬ (1 < (CatastropheTheoryAnalyzer.analyze_collapse_risk (fun _ _ => [0, 0, 0]) m s su).equilibria.length) →
        (CatastropheTheoryAnalyzer.analyze_collapse_risk (fun _ _ => [0, 0, 0]) m s su).collapse_risk = 2/10)) ∧
    (CatastropheTheoryAnalyzer.analyze_collapse_risk (fun _ _ => [0, 0, 0]) 50 50 50).near_bifurcation = true ∧
    (CatastropheTheoryAnalyzer.analyze_collapse_risk (fun _ _ => [0, 0, 0]) 50 50 50).collapse_risk = 8/10 ∧
    IsEquilibrium 0 0 0 ∧
    (0 : ℚ) ∈ (CatastropheTheoryAnalyzer.analyze_collapse_risk (fun _ _ => [0, 0, 0]) 50 50 50).equilibria :=
  analyze_collapse_risk_decision_table (fun _ _ => [0, 0, 0])
    (fun x hx => by
      have hx0 : x = 0 := by
        have : x ^ 3 = 0 := by
          have := hx
          unfold IsEquilibrium at this
          linarith [this]
        exact pow_eq_zero_iff (n := 3) (by norm_num) |>.mp this
      simp [hx0])

/-- Output dictionary of the `TimeSeriesForecaster` methods. -/
structure ForecastOutput where
  forecast : List ℚ
  lower_bound : List ℚ
  upper_bound : List ℚ
  model : String

namespace TimeSeriesForecaster

/-- `_baseline_forecast`: hold the last observed value (50 for an empty
series) with a fixed 2%-per-day multiplicative decay and a ±10 band.
Note the day-`i` value is `last_value * 0.98^i`, so the day-0 value is
`last_value` itself. -/
def baseline_forecast (time_series : List ℚ) (horizon : ℕ) : ForecastOutput :=
  let last_value : ℚ := time_series.getLastD 50
  let decay_rate : ℚ := 2/100
  let forecast := (List.range horizon).map (fun i : ℕ => last_value * (1 - decay_rate) ^ i)
  { forecast := forecast
    lower_bound := forecast.map (fun x => x - 10)
    upper_bound := forecast.map (fun x => x + 10)
    model := "baseline" }

/-- `fit_predict_arima`: below 10 points the SARIMAX branch is never
entered and the baseline is returned directly; otherwise the external
SARIMAX fit/forecast is the `arima` argument, any exception in it
(`none`) also falling back to the baseline.  The function is total:
no error propagates to the caller. -/
def fit_predict_arima (time_series : List ℚ) (forecast_horizon : ℕ)
    (arima : Option ForecastOutput) : ForecastOutput :=
  if time_series.length < 10 then baseline_forecast time_series forecast_horizon
  else
    match arima with
    | some r => r
    | none => baseline_forecast time_series forecast_horizon

end TimeSeriesForecaster

/-- C3 (amended): with fewer than 10 historical points `fit_predict_arima`
always returns the baseline forecast (totally — nothing is raised): the
day-`i` value is `last_value * 0.98^i`, so the FIRST value equals the
last observed value itself (the 2% decay starts from the second day), and
the lower/upper bounds are the forecast minus/plus 10. -/
theorem fit_predict_arima_baseline_below_ten (time_series : List ℚ)
    (horizon : ℕ) (arima : Option ForecastOutput)
    (h : time_series.length < 10) :
    TimeSeriesForecaster.fit_predict_arima time_series horizon arima =
      TimeSeriesForecaster.baseline_forecast time_series horizon ∧
    (TimeSeriesForecaster.fit_predict_arima time_series horizon arima).forecast.length = horizon ∧
    (∀ i : ℕ, i < horizon →
      (TimeSeriesForecaster.fit_predict_arima time_series horizon arima).forecast.get? i =
        some (time_series.getLastD 50 * (98/100) ^ i) ∧
      (TimeSeriesForecaster.fit_predict_arima time_series horizon arima).lower_bound.get? i =
        some (time_series.getLastD 50 * (98/100) ^ i - 10) ∧
      (TimeSeriesForecaster.fit_predict_arima time_series horizon arima).upper_bound.get? i =
        some (time_series.getLastD 50 * (98/100) ^ i + 10)) := by
  have heq : TimeSeriesForecaster.fit_predict_arima time_series horizon arima =
      TimeSeriesForecaster.baseline_forecast time_series horizon := by
    unfold TimeSeriesForecaster.fit_predict_arima
    rw [if_pos h]
  refine ⟨heq, ?_, ?_⟩
  · rw [heq]; simp [TimeSeriesForecaster.baseline_forecast]
  · intro i hi
    rw [heq]
    simp only [TimeSeriesForecaster.baseline_forecast, List.get?_map,
      List.get?_range hi, Option.map_some']
    norm_num

/-- Witness for `fit_predict_arima_baseline_below_ten` on the one-point
series `[60]` with horizon 3. -/
theorem fit_predict_arima_baseline_below_ten_witness :
    TimeSeriesForecaster.fit_predict_arima [60] 3 none =
      TimeSeriesForecaster.baseline_forecast [60] 3 ∧
    (TimeSeriesForecaster.fit_predict_arima [60] 3 none).forecast.length = 3 ∧
    (∀ i : ℕ, i < 3 →
      (TimeSeriesForecaster.fit_predict_arima [60] 3 none).forecast.get? i =
        some (([60] : List ℚ).getLastD 50 * (98/100) ^ i) ∧
      (TimeSeriesForecaster.fit_predict_arima [60] 3 none).lower_bound.get? i =
        some (([60] : List ℚ).getLastD 50 * (98/100) ^ i - 10) ∧
      (TimeSeriesForecaster.fit_predict_arima [60] 3 none).upper_bound.get? i =
        some (([60] : List ℚ).getLastD 50 * (98/100) ^ i + 10)) :=
  fit_predict_arima_baseline_below_ten [60] 3 none (by decide)

/-- C3 counterexample: on the one-point series `[60]` the first baseline
value is 60, the last observed value itself — not `60 * 0.98 = 58.8` as
the claim states. -/
theorem baseline_first_value_cex :
    (TimeSeriesForecaster.fit_predict_arima [60] 30 none).forecast.get? 0 = some 60 ∧
    ¬ ((TimeSeriesForecaster.fit_predict_arima [60] 30 none).forecast.get? 0 =
      some (60 * (98/100))) := by
  have h1 : TimeSeriesForecaster.fit_predict_arima [60] 30 none =
      TimeSeriesForecaster.baseline_forecast [60] 30 := by
    unfold TimeSeriesForecaster.fit_predict_arima
    rw [if_pos (by norm_num)]
  constructor
  · rw [h1]
    simp only [TimeSeriesForecaster.baseline_forecast, List.get?_map,
      List.get?_range (by norm_num : (0:ℕ) < 30), Option.map_some']
    norm_num
  · rw [h1]
    simp only [TimeSeriesForecaster.baseline_forecast, List.get?_map,
      List.get?_range (by norm_num : (0:ℕ) < 30), Option.map_some', Option.some_inj]
    norm_num

/-- `np.mean` of a list (the engine only calls it on non-empty lists). -/
def listMean (l : List ℚ) : ℚ := l.sum / l.length

/-- Result dictionary of `LyapunovStabilityAnalyzer.assess_stability`. -/
structure StabilityResult where
  stability : String
  stability_score : ℚ
  total_deviation : ℚ

namespace LyapunovStabilityAnalyzer

/-- `assess_stability`: average absolute deviation of current momentum,
mean academic level and mean psychological level from the fixed healthy
targets (70, 70, 40), classified by the thresholds 15 and 30. -/
def assess_stability (current_momentum : ℚ)
    (academic_state psychological_state : List ℚ) : StabilityResult :=
  let momentum_deviation := |current_momentum - 70|
  let academic_deviation := |listMean academic_state - 70|
  let psych_deviation := |listMean psychological_state - 40|
  let total_deviation := (momentum_deviation + academic_deviation + psych_deviation) / 3
  if total_deviation < 15 then ⟨"stable", 9/10, total_deviation⟩
  else if total_deviation < 30 then ⟨"marginally_stable", 1/2, total_deviation⟩
  else ⟨"unstable", 1/10, total_deviation⟩

end LyapunovStabilityAnalyzer

theorem stability_score_mem (m : ℚ) (a p : List ℚ) :
    0 ≤ (LyapunovStabilityAnalyzer.assess_stability m a p).stability_score ∧
    (LyapunovStabilityAnalyzer.assess_stability m a p).stability_score ≤ 1 := by
  unfold LyapunovStabilityAnalyzer.assess_stability
  dsimp only
  split_ifs <;> norm_num

/-- `np.clip(x, 0, 1)`. -/
def clip01 (x : ℚ) : ℚ := max 0 (min x 1)

namespace ReinforcementLearningCollapsePredictor

/-- `predict_collapse_probability`.  The engine never trains the
predictor, so the `self.fitted` branch taken in practice is the heuristic
on `features[0]` (recent mean momentum), `features[4]` (trend) and
`features[9]` (volatility); the trained-model branch (`fitted = some
model`) is `np.clip(model(features), 0, 1)`. -/
def predict_collapse_probability (fitted : Option (List ℚ → ℚ))
    (features : List ℚ) : ℚ :=
  match fitted with
  | some model => clip01 (model features)
  | none =>
    let mean_momentum := features.getD 0 0
    let trend := features.getD 4 0
    let volatility := features.getD 9 0
    let risk : ℚ :=
      (if mean_momentum < 30 then 4/10 else if mean_momentum < 50 then 2/10 else 0) +
      (if trend < -5 then 3/10 else if trend < 0 then 1/10 else 0) +
      (if volatility > 10 then 2/10 else 0)
    min risk 1

end ReinforcementLearningCollapsePredictor

theorem ml_collapse_prob_mem (fitted : Option (List ℚ → ℚ)) (features : List ℚ) :
    0 ≤ ReinforcementLearningCollapsePredictor.predict_collapse_probability fitted features ∧
    ReinforcementLearningCollapsePredictor.predict_collapse_probability fitted features ≤ 1 := by
  unfold ReinforcementLearningCollapsePredictor.predict_collapse_probability
  match fitted with
  | some model =>
    exact ⟨le_max_left 0 _, max_le (by norm_num) (min_le_right _ 1)⟩
  | none =>
    constructor
    · apply le_min _ (by norm_num)
      have h1 : (0:ℚ) ≤
          (if features.getD 0 0 < 30 then (4:ℚ)/10
            else if features.getD 0 0 < 50 then 2/10 else 0) := by
        split <;> norm_num
        split <;> norm_num
      have h2 : (0:ℚ) ≤
          (if features.getD 4 0 < -5 then (3:ℚ)/10
            else if features.getD 4 0 < 0 then 1/10 else 0) := by
        split <;> norm_num
        split <;> norm_num
      have h3 : (0:ℚ) ≤ (if features.getD 9 0 > 10 then (2:ℚ)/10 else 0) := by
        split <;> norm_num
      linarith
    · exact min_le_right _ 1

theorem catastrophe_collapse_risk_mem (roots : ℚ → ℚ → List ℚ) (m s su : ℚ) :
    0 ≤ (CatastropheTheoryAnalyzer.analyze_collapse_risk roots m s su).collapse_risk ∧
    (CatastropheTheoryAnalyzer.analyze_collapse_risk roots m s su).collapse_risk ≤ 1 := by
  unfold CatastropheTheoryAnalyzer.analyze_collapse_risk
  simp only
  split
  · norm_num
  · split
    · norm_num
    · split <;> norm_num

/-- Risk level plus intervention urgency, as set by
`comprehensive_forecast` from the combined collapse probability. -/
structure RiskClassification where
  risk_level : String
  intervention_urgency : ℚ

namespace AcademicCollapseForecastingEngine

/-- The ensemble weights of `comprehensive_forecast`. -/
def combined_collapse_prob (catastrophe_risk stochastic_prob ml_prob
    stability_score : ℚ) : ℚ :=
  (25/100) * catastrophe_risk + (30/100) * stochastic_prob +
    (25/100) * ml_prob + (20/100) * (1 - stability_score)

/-- The risk-level / urgency ladder of `comprehensive_forecast`
(exclusive lower bounds 0.7 / 0.5 / 0.3). -/
def classify_risk (p : ℚ) : RiskClassification :=
  if p > 7/10 then ⟨"critical", 95⟩
  else if p > 1/2 then ⟨"high", 75⟩
  else if p > 3/10 then ⟨"medium", 50⟩
  else ⟨"low", 20⟩

end AcademicCollapseForecastingEngine

/-- The combined collapse probability of `comprehensive_forecast`,
expressed on the actual sub-model outputs: the catastrophe analyzer's
collapse risk, the stochastic simulator's collapse probability, the
pattern-based predictor's probability and the stability analyzer's
score. -/
def ensemble_collapse_prob (roots : ℚ → ℚ → List ℚ) (m s su stoch : ℚ)
    (fitted : Option (List ℚ → ℚ)) (features : List ℚ)
    (sm : ℚ) (sa sp : List ℚ) : ℚ :=
  AcademicCollapseForecastingEngine.combined_collapse_prob
    (CatastropheTheoryAnalyzer.analyze_collapse_risk roots m s su).collapse_risk
    stoch
    (ReinforcementLearningCollapsePredictor.predict_collapse_probability fitted features)
    (LyapunovStabilityAnalyzer.assess_stability sm sa sp).stability_score

/-- C4: feeding the actual sub-model outputs — the catastrophe analyzer's
collapse risk, any stochastic collapse probability in `[0,1]`, the
pattern-based predictor's probability and the stability analyzer's score
— into the ensemble, the combined collapse probability is the weighted
sum 0.25/0.30/0.25/0.20 (the last weight on `1 - stability_score`), lies
in `[0,1]`, and is mapped to risk level and urgency by the exclusive
lower bounds 0.7 → critical/95, 0.5 → high/75, 0.3 → medium/50, else
low/20. -/
theorem comprehensive_forecast_combination (roots : ℚ → ℚ → List ℚ)
    (m s su : ℚ) (stoch : ℚ) (hs0 : 0 ≤ stoch) (hs1 : stoch ≤ 1)
    (fitted : Option (List ℚ → ℚ)) (features : List ℚ)
    (sm : ℚ) (sa sp : List ℚ) :
    (ensemble_collapse_prob roots m s su stoch fitted features sm sa sp =
      (25/100) * (CatastropheTheoryAnalyzer.analyze_collapse_risk roots m s su).collapse_risk +
      (30/100) * stoch +
      (25/100) * ReinforcementLearningCollapsePredictor.predict_collapse_probability fitted features +
      (20/100) * (1 - (LyapunovStabilityAnalyzer.assess_stability sm sa sp).stability_score)) ∧
    (0 ≤ ensemble_collapse_prob roots m s su stoch fitted features sm sa sp ∧
      ensemble_collapse_prob roots m s su stoch fitted features sm sa sp ≤ 1) ∧
    (7/10 < ensemble_collapse_prob roots m s su stoch fitted features sm sa sp →
      AcademicCollapseForecastingEngine.classify_risk
        (ensemble_collapse_prob roots m s su stoch fitted features sm sa sp) = ⟨"critical", 95⟩) ∧
    (ensemble_collapse_prob roots m s su stoch fitted features sm sa sp ≤ 7/10 →
      1/2 < ensemble_collapse_prob roots m s su stoch fitted features sm sa sp →
      AcademicCollapseForecastingEngine.classify_risk
        (ensemble_collapse_prob roots m s su stoch fitted features sm sa sp) = ⟨"high", 75⟩) ∧
    (ensemble_collapse_prob roots m s su stoch fitted features sm sa sp ≤ 1/2 →
      3/10 < ensemble_collapse_prob roots m s su stoch fitted features sm sa sp →
      AcademicCollapseForecastingEngine.classify_risk
        (ensemble_collapse_prob roots m s su stoch fitted features sm sa sp) = ⟨"medium", 50⟩) ∧
    (ensemble_collapse_prob roots m s su stoch fitted features sm sa sp ≤ 3/10 →
      AcademicCollapseForecastingEngine.classify_risk
        (ensemble_collapse_prob roots m s su stoch fitted features sm sa sp) = ⟨"low", 20⟩) := by
  obtain ⟨hc0, hc1⟩ := catastrophe_collapse_risk_mem roots m s su
  obtain ⟨hm0, hm1⟩ := ml_collapse_prob_mem fitted features
  obtain ⟨ht0, ht1⟩ := stability_score_mem sm sa sp
  refine ⟨rfl, ⟨?_, ?_⟩, ?_, ?_, ?_, ?_⟩
  · unfold ensemble_collapse_prob AcademicCollapseForecastingEngine.combined_collapse_prob
    nlinarith
  · unfold ensemble_collapse_prob AcademicCollapseForecastingEngine.combined_collapse_prob
    nlinarith
  · intro hp
    unfold AcademicCollapseForecastingEngine.classify_risk
    rw [if_pos hp]
  · intro hp1 hp2
    unfold AcademicCollapseForecastingEngine.classify_risk
    rw [if_neg (by linarith), if_pos hp2]
  · intro hp1 hp2
    unfold AcademicCollapseForecastingEngine.classify_risk
    rw [if_neg (by linarith), if_neg (by linarith), if_pos hp2]
  · intro hp
    unfold AcademicCollapseForecastingEngine.classify_risk
    rw [if_neg (by linarith), if_neg (by linarith), if_neg (by linarith)]

/-- Witness for `comprehensive_forecast_combination` at concrete inputs
(stochastic collapse probability 0.4). -/
theorem comprehensive_forecast_combination_witness :
    (ensemble_collapse_prob (fun _ _ => [0]) 50 50 50 (4/10) none
        [60, 0, 0, 0, 1, 0, 0, 0, 0, 0] 70 [70] [40] =
      (25/100) * (CatastropheTheoryAnalyzer.analyze_collapse_risk (fun _ _ => [0]) 50 50 50).collapse_risk +
      (30/100) * (4/10) +
      (25/100) * ReinforcementLearningCollapsePredictor.predict_collapse_probability none
        [60, 0, 0, 0, 1, 0, 0, 0, 0, 0] +
      (20/100) * (1 - (LyapunovStabilityAnalyzer.assess_stability 70 [70] [40]).stability_score)) ∧
    (0 ≤ ensemble_collapse_prob (fun _ _ => [0]) 50 50 50 (4/10) none
        [60, 0, 0, 0, 1, 0, 0, 0, 0, 0] 70 [70] [40] ∧
      ensemble_collapse_prob (fun _ _ => [0]) 50 50 50 (4/10) none
        [60, 0, 0, 0, 1, 0, 0, 0, 0, 0] 70 [70] [40] ≤ 1) ∧
    (7/10 < ensemble_collapse_prob (fun _ _ => [0]) 50 50 50 (4/10) none
        [60, 0, 0, 0, 1, 0, 0, 0, 0, 0] 70 [70] [40] →
      AcademicCollapseForecastingEngine.classify_risk
        (ensemble_collapse_prob (fun _ _ => [0]) 50 50 50 (4/10) none
          [60, 0, 0, 0, 1, 0, 0, 0, 0, 0] 70 [70] [40]) = ⟨"critical", 95⟩) ∧
    (ensemble_collapse_prob (fun _ _ => [0]) 50 50 50 (4/10) none
        [60, 0, 0, 0, 1, 0, 0, 0, 0, 0] 70 [70] [40] ≤ 7/10 →
      1/2 < ensemble_collapse_prob (fun _ _ => [0]) 50 50 50 (4/10) none
        [60, 0, 0, 0, 1, 0, 0, 0, 0, 0] 70 [70] [40] →
      AcademicCollapseForecastingEngine.classify_risk
        (ensemble_collapse_prob (fun _ _ => [0]) 50 50 50 (4/10) none
          [60, 0, 0, 0, 1, 0, 0, 0, 0, 0] 70 [70] [40]) = ⟨"high", 75⟩) ∧
    (ensemble_collapse_prob (fun _ _ => [0]) 50 50 50 (4/10) none
        [60, 0, 0, 0, 1, 0, 0, 0, 0, 0] 70 [70] [40] ≤ 1/2 →
      3/10 < ensemble_collapse_prob (fun _ _ => [0]) 50 50 50 (4/10) none
        [60, 0, 0, 0, 1, 0, 0, 0, 0, 0] 70 [70] [40] →
      AcademicCollapseForecastingEngine.classify_risk
        (ensemble_collapse_prob (fun _ _ => [0]) 50 50 50 (4/10) none
          [60, 0, 0, 0, 1, 0, 0, 0, 0, 0] 70 [70] [40]) = ⟨"medium", 50⟩) ∧
    (ensemble_collapse_prob (fun _ _ => [0]) 50 50 50 (4/10) none
        [60, 0, 0, 0, 1, 0, 0, 0, 0, 0] 70 [70] [40] ≤ 3/10 →
      AcademicCollapseForecastingEngine.classify_risk
        (ensemble_collapse_prob (fun _ _ => [0]) 50 50 50 (4/10) none
          [60, 0, 0, 0, 1, 0, 0, 0, 0, 0] 70 [70] [40]) = ⟨"low", 20⟩) :=
  comprehensive_forecast_combination (fun _ _ => [0]) 50 50 50 (4/10)
    (by norm_num) (by norm_num) none [60, 0, 0, 0, 1, 0, 0, 0, 0, 0] 70 [70] [40]

namespace StochasticDynamicsModel

/-- `self.dt = 0.1`. -/
def dt : ℚ := 1/10

/-- `self.noise_level = 0.5`. -/
def noise_level : ℚ := 1/2

def drift_momentum (M A P intervention : ℚ) : ℚ :=
  -(5/100) * (M - 50) + (3/10) * (A - 50) + ((2/10) * (100 - P) - 10) +
    (15/100) * intervention

def drift_academic (M A P : ℚ) : ℚ :=
  (2/10) * (M - 50) + -(15/100) * (P - 50) + -(3/100) * (A - 50)

def drift_psychological (M A P : ℚ) : ℚ :=
  -(15/100) * (M - 50) + (1/10) * (50 - A) + -(5/100) * (P - 40)

/-- One `(M, A, P)` point of a simulated trajectory. -/
structure SDEState where
  M : ℚ
  A : ℚ
  P : ℚ

/-- The three independent Wiener increments `(dW_M, dW_A, dW_P)` of one
Euler–Maruyama step (`np.random.normal(0, sqrt(dt))` draws, supplied
explicitly). -/
structure Noise3 where
  wM : ℚ
  wA : ℚ
  wP : ℚ

/-- One Euler–Maruyama step: drift `* dt` plus scaled noise, every channel
clamped into `[0,100]` with `np.clip`. -/
def emStep (s : SDEState) (intervention : ℚ) (w : Noise3) : SDEState :=
  let dM := drift_momentum s.M s.A s.P intervention * dt + noise_level * w.wM
  let dA := drift_academic s.M s.A s.P * dt + noise_level * (1/2) * w.wA
  let dP := drift_psychological s.M s.A s.P * dt + noise_level * (3/10) * w.wP
  ⟨clip100 (s.M + dM), clip100 (s.A + dA), clip100 (s.P + dP)⟩

/-- The schedule read
`intervention_schedule[min(day, len(intervention_schedule)-1)]`.
For an empty schedule the Python read raises `IndexError` (index `-1` of
an empty array); here that failure is `none`. -/
def scheduleAt (sched : List ℚ) (day : ℕ) : Option ℚ :=
  sched.get? (min day (sched.length - 1))

/-- The inner step loop of one simulation, storing the state after every
step.  `step / 10` is the current day `int(step * self.dt)` (exact for
`dt = 0.1` in the relevant range).  A failed schedule read aborts with
`none`. -/
def runSteps (sched : List ℚ) (w : ℕ → Noise3) :
    ℕ → ℕ → SDEState → Option (List SDEState)
  | _, 0, _ => some []
  | step, k + 1, s =>
    match scheduleAt sched (step / 10) with
    | none => none
    | some intervention =>
      let s1 := emStep s intervention (w step)
      match runSteps sched w (step + 1) k s1 with
      | none => none
      | some rest => some (s1 :: rest)

/-- The outer loop over `sim in range(n_simulations)`, collecting the
per-simulation trajectories in order. -/
def collectSims (g : ℕ → Option (List SDEState)) : ℕ → Option (List (List SDEState))
  | 0 => some []
  | n + 1 =>
    match collectSims g n, g n with
    | some acc, some t => some (acc ++ [t])
    | _, _ => none

/-- The summary dictionary of `simulate_trajectory`, restricted to the
daily mean arrays and the collapse probability (the std / 5th / 95th
percentile entries involve `np.sqrt` / interpolated percentiles and are
not modelled; no claim refers to them). -/
structure SimulationResult where
  momentum_mean : List ℚ
  academic_mean : List ℚ
  psychological_mean : List ℚ
  collapse_probability : ℚ

/-- `collapse_threshold = 20` in `_calculate_collapse_probability`. -/
def collapse_threshold : ℚ := 20

/-- `StochasticDynamicsModel.simulate_trajectory` followed by
`_calculate_collapse_probability`.  `n_steps = int(n_days / 0.1)` is
`n_days * 10`; the daily downsampling `np.arange(0, n_steps, int(1/dt))`
reads indices `0, 10, ..., 10*(n_days-1)`; the collapse probability is the
fraction of simulations whose momentum on the last sampled day is below
20. -/
def simulate_trajectory (M0 A0 P0 : ℚ) (intervention_schedule : List ℚ)
    (n_days n_simulations : ℕ) (w : ℕ → ℕ → Noise3) : Option SimulationResult :=
  let n_steps := n_days * 10
  match collectSims
      (fun sim => runSteps intervention_schedule (w sim) 0 n_steps ⟨M0, A0, P0⟩)
      n_simulations with
  | none => none
  | some trajs =>
    let dayVal : List SDEState → ℕ → SDEState := fun t d => t.getD (d * 10) ⟨0, 0, 0⟩
    let days := List.range n_days
    some
      { momentum_mean := days.map (fun d => listMean (trajs.map (fun t => (dayVal t d).M)))
        academic_mean := days.map (fun d => listMean (trajs.map (fun t => (dayVal t d).A)))
        psychological_mean := days.map (fun d => listMean (trajs.map (fun t => (dayVal t d).P)))
        collapse_probability :=
          ((trajs.filter
              (fun t => decide ((dayVal t (n_days - 1)).M < collapse_threshold))).length : ℚ) /
            (trajs.length : ℚ) }

/-- All three channels lie in `[0,100]`. -/
def InRange (s : SDEState) : Prop :=
  (0 ≤ s.M ∧ s.M ≤ 100) ∧ (0 ≤ s.A ∧ s.A ≤ 100) ∧ (0 ≤ s.P ∧ s.P ≤ 100)

theorem emStep_inRange (s : SDEState) (intervention : ℚ) (w : Noise3) :
    InRange (emStep s intervention w) :=
  ⟨⟨clip100_nonneg _, clip100_le _⟩, ⟨clip100_nonneg _, clip100_le _⟩,
    ⟨clip100_nonneg _, clip100_le _⟩⟩

theorem scheduleAt_isSome (sched : List ℚ) (h : sched ≠ []) (day : ℕ) :
    ∃ q, scheduleAt sched day = some q := by
  have hlen : 0 < sched.length := List.length_pos.mpr h
  have hidx : min day (sched.length - 1) < sched.length := by omega
  unfold scheduleAt
  rw [List.get?_eq_get hidx]
  exact ⟨_, rfl⟩

theorem runSteps_some (sched : List ℚ) (h : sched ≠ []) (w : ℕ → Noise3) :
    ∀ (k step : ℕ) (s : SDEState),
      ∃ l : List SDEState, runSteps sched w step k s = some l ∧
        l.length = k ∧ ∀ x ∈ l, InRange x := by
  intro k
  induction k with
  | zero =>
    intro step s
    exact ⟨[], rfl, rfl, by intro x hx; cases hx⟩
  | succ m ih =>
    intro step s
    obtain ⟨q, hq⟩ := scheduleAt_isSome sched h (step / 10)
    obtain ⟨l, hl, hlen, hmem⟩ := ih (step + 1) (emStep s q (w step))
    refine ⟨emStep s q (w step) :: l, ?_, by simp [hlen], ?_⟩
    · unfold runSteps
      rw [hq]
      simp only
      rw [hl]
    · intro x hx
      rcases List.mem_cons.mp hx with hx1 | hx2
      · rw [hx1]; exact emStep_inRange _ _ _
      · exact hmem x hx2

theorem collectSims_some (g : ℕ → Option (List SDEState))
    (Q : List SDEState → Prop)
    (hg : ∀ i : ℕ, ∃ t, g i = some t ∧ Q t) :
    ∀ n : ℕ, ∃ ts, collectSims g n = some ts ∧ ts.length = n ∧ ∀ t ∈ ts, Q t := by
  intro n
  induction n with
  | zero => exact ⟨[], rfl, rfl, by intro t ht; cases ht⟩
  | succ m ih =>
    obtain ⟨ts, hts, htlen, htmem⟩ := ih
    obtain ⟨t, ht, hQ⟩ := hg m
    refine ⟨ts ++ [t], ?_, by simp [htlen], ?_⟩
    · unfold collectSims
      rw [hts, ht]
    · intro u hu
      rcases List.mem_append.mp hu with hu1 | hu2
      · exact htmem u hu1
      · rw [List.mem_singleton.mp hu2]; exact hQ

theorem getD_inRange (t : List SDEState) (hmem : ∀ x ∈ t, InRange x) (i : ℕ) :
    InRange (t.getD i ⟨0, 0, 0⟩) := by
  by_cases hi : i < t.length
  · rw [List.getD_eq_getElem t _ hi]
    exact hmem _ (List.getElem_mem hi)
  · rw [List.getD_eq_default t _ (by omega)]
    refine ⟨⟨le_refl 0, by norm_num⟩, ⟨le_refl 0, by norm_num⟩, le_refl 0, by norm_num⟩

theorem listMean_bounds (l : List ℚ) (h : ∀ x ∈ l, 0 ≤ x ∧ x ≤ 100) :
    0 ≤ listMean l ∧ listMean l ≤ 100 := by
  rcases eq_or_ne l [] with hl | hl
  · subst hl
    norm_num [listMean]
  · have hlen : 0 < l.length := List.length_pos.mpr hl
    have hlenq : (0:ℚ) < (l.length : ℚ) := by exact_mod_cast hlen
    have hsum0 : 0 ≤ l.sum := List.sum_nonneg (fun x hx => (h x hx).1)
    have hsum1 : l.sum ≤ (l.length : ℚ) * 100 := by
      have := List.sum_le_card_nsmul l 100 (fun x hx => (h x hx).2)
      simpa [nsmul_eq_mul] using this
    unfold listMean
    constructor
    · exact div_nonneg hsum0 (le_of_lt hlenq)
    · rw [div_le_iff hlenq]
      linarith

end StochasticDynamicsModel

/-- C6: for any in-range initial state, non-empty intervention schedule,
`n_simulations ≥ 1` and `n_days = 30`, the simulation succeeds; the
per-channel daily arrays have length at most 30 and every entry lies in
`[0,100]` (each channel is clamped at every Euler–Maruyama step, so the
daily means of the clamped values stay in range), and the collapse
probability — the fraction of simulations whose final-day momentum is
below 20 — lies in `[0,1]`. -/
theorem simulate_trajectory_bounds (M0 A0 P0 : ℚ) (sched : List ℚ)
    (n_simulations : ℕ) (w : ℕ → ℕ → StochasticDynamicsModel.Noise3)
    (hM : 0 ≤ M0 ∧ M0 ≤ 100) (hA : 0 ≤ A0 ∧ A0 ≤ 100) (hP : 0 ≤ P0 ∧ P0 ≤ 100)
    (hsched : sched ≠ []) (hsim : 1 ≤ n_simulations) :
    ∃ r : StochasticDynamicsModel.SimulationResult,
      StochasticDynamicsModel.simulate_trajectory M0 A0 P0 sched 30 n_simulations w = some r ∧
      r.momentum_mean.length ≤ 30 ∧
      r.academic_mean.length ≤ 30 ∧
      r.psychological_mean.length ≤ 30 ∧
      (∀ x ∈ r.momentum_mean, 0 ≤ x ∧ x ≤ 100) ∧
      (∀ x ∈ r.academic_mean, 0 ≤ x ∧ x ≤ 100) ∧
      (∀ x ∈ r.psychological_mean, 0 ≤ x ∧ x ≤ 100) ∧
      0 ≤ r.collapse_probability ∧ r.collapse_probability ≤ 1 := by
  classical
  obtain ⟨ts, hts, htslen, htsmem⟩ :=
    StochasticDynamicsModel.collectSims_some
      (fun sim => StochasticDynamicsModel.runSteps sched (w sim) 0 (30 * 10) ⟨M0, A0, P0⟩)
      (fun t => ∀ x ∈ t, StochasticDynamicsModel.InRange x)
      (fun i => by
        obtain ⟨l, hl, _, hmem⟩ :=
          StochasticDynamicsModel.runSteps_some sched hsched (w i) (30 * 10) 0 ⟨M0, A0, P0⟩
        exact ⟨l, hl, hmem⟩)
      n_simulations
  unfold StochasticDynamicsModel.simulate_trajectory
  dsimp only
  rw [hts]
  refine ⟨_, rfl, ?_, ?_, ?_, ?_, ?_, ?_, ?_, ?_⟩
  · simp
  · simp
  · simp
  · intro x hx
    obtain ⟨d, _, hdx⟩ := List.mem_map.mp hx
    rw [← hdx]
    apply StochasticDynamicsModel.listMean_bounds
    intro y hy
    obtain ⟨t, ht, hty⟩ := List.mem_map.mp hy
    rw [← hty]
    exact (StochasticDynamicsModel.getD_inRange t (htsmem t ht) _).1
  · intro x hx
    obtain ⟨d, _, hdx⟩ := List.mem_map.mp hx
    rw [← hdx]
    apply StochasticDynamicsModel.listMean_bounds
    intro y hy
    obtain ⟨t, ht, hty⟩ := List.mem_map.mp hy
    rw [← hty]
    exact (StochasticDynamicsModel.getD_inRange t (htsmem t ht) _).2.1
  · intro x hx
    obtain ⟨d, _, hdx⟩ := List.mem_map.mp hx
    rw [← hdx]
    apply StochasticDynamicsModel.listMean_bounds
    intro y hy
    obtain ⟨t, ht, hty⟩ := List.mem_map.mp hy
    rw [← hty]
    exact (StochasticDynamicsModel.getD_inRange t (htsmem t ht) _).2.2
  · apply div_nonneg (by positivity)
    positivity
  · have hcnt : (ts.filter
        (fun t => decide ((StochasticDynamicsModel.SDEState.M
          (t.getD ((30 - 1) * 10) ⟨0, 0, 0⟩)) < StochasticDynamicsModel.collapse_threshold))).length ≤
        ts.length := List.length_filter_le _ _
    have hlen : 0 < ts.length := by omega
    have hlenq : (0:ℚ) < (ts.length : ℚ) := by exact_mod_cast hlen
    rw [div_le_one hlenq]
    exact_mod_cast hcnt

/-- Witness for `simulate_trajectory_bounds`: one simulation over the
constant schedule `[0]` with zero noise from the mid-range state
`(50, 50, 50)`. -/
theorem simulate_trajectory_bounds_witness :
    ∃ r : StochasticDynamicsModel.SimulationResult,
      StochasticDynamicsModel.simulate_trajectory 50 50 50 [0] 30 1
        (fun _ _ => ⟨0, 0, 0⟩) = some r ∧
      r.momentum_mean.length ≤ 30 ∧
      r.academic_mean.length ≤ 30 ∧
      r.psychological_mean.length ≤ 30 ∧
      (∀ x ∈ r.momentum_mean, 0 ≤ x ∧ x ≤ 100) ∧
      (∀ x ∈ r.academic_mean, 0 ≤ x ∧ x ≤ 100) ∧
      (∀ x ∈ r.psychological_mean, 0 ≤ x ∧ x ≤ 100) ∧
      0 ≤ r.collapse_probability ∧ r.collapse_probability ≤ 1 :=
  simulate_trajectory_bounds 50 50 50 [0] 1 (fun _ _ => ⟨0, 0, 0⟩)
    ⟨by norm_num, by norm_num⟩ ⟨by norm_num, by norm_num⟩ ⟨by norm_num, by norm_num⟩
    (by simp) (by norm_num)

/-- C10: for every non-empty intervention schedule — of any length,
including shorter than the horizon — every schedule read of the
simulation uses the index `min(day, len(schedule)-1)`, which is always in
bounds, so the whole simulation succeeds regardless of schedule length. -/
theorem schedule_access_in_bounds (sched : List ℚ) (hsched : sched ≠ [])
    (M0 A0 P0 : ℚ) (n_days n_simulations : ℕ)
    (w : ℕ → ℕ → StochasticDynamicsModel.Noise3) (hdays : 1 ≤ n_days) :
    (∀ day : ℕ, min day (sched.length - 1) < sched.length) ∧
    (StochasticDynamicsModel.simulate_trajectory M0 A0 P0 sched
      n_days n_simulations w).isSome := by
  have hlen : 0 < sched.length := List.length_pos.mpr hsched
  refine ⟨fun day => by omega, ?_⟩
  obtain ⟨ts, hts, _, _⟩ :=
    StochasticDynamicsModel.collectSims_some
      (fun sim => StochasticDynamicsModel.runSteps sched (w sim) 0 (n_days * 10) ⟨M0, A0, P0⟩)
      (fun _ => True)
      (fun i => by
        obtain ⟨l, hl, _, _⟩ :=
          StochasticDynamicsModel.runSteps_some sched hsched (w i) (n_days * 10) 0 ⟨M0, A0, P0⟩
        exact ⟨l, hl, trivial⟩)
      n_simulations
  unfold StochasticDynamicsModel.simulate_trajectory
  dsimp only
  rw [hts]
  rfl

/-- Witness for `schedule_access_in_bounds` on the one-entry schedule
`[5]` over a 3-day horizon (shorter schedule than horizon). -/
theorem schedule_access_in_bounds_witness :
    (∀ day : ℕ, min day (([5] : List ℚ).length - 1) < ([5] : List ℚ).length) ∧
    (StochasticDynamicsModel.simulate_trajectory 50 50 50 [5] 3 2
      (fun _ _ => ⟨0, 0, 0⟩)).isSome :=
  schedule_access_in_bounds [5] (by simp) 50 50 50 3 2
    (fun _ _ => ⟨0, 0, 0⟩) (by norm_num)

end MomentumAI
